import Mathlib

/-!
Verification of the pomodoro timer state machine in
`src/app/static/js/pomodoro-widget.js`.

The embedding models the in-memory `state` object, the mutable `settings`
object and the pure state-transition content of the widget's functions
(`setSessionType`, `toggleTimer`, `completeSession`, `resetTimer`,
`skipSession`, `adjustDuration`, `loadState`, `fetchSettings`,
`updateDisplay`).  DOM manipulation, sound, notifications and
`localStorage` serialization are presentation or I/O effects with no
influence on the state fields and are omitted; network calls are modelled
by passing their (optional) results as explicit arguments, and the
*ordering* of the asynchronous completion path is modelled separately as
an explicit event trace (`tickEvents`).

JavaScript numbers holding integer quantities (epoch milliseconds,
minutes, counters) are modelled as `Int`; a nullable numeric field is
`Option Int`, where JavaScript truthiness of such a field is
`truthyInt` (null and 0 are falsy) and JavaScript arithmetic coercion of
`null` to `0` is `numOf`.
-/

/-- The session type enum: the `state.type` field takes the string values
`'work'`, `'short_break'`, `'long_break'`. -/
inductive SessionType where
  | work
  | short_break
  | long_break
deriving DecidableEq, Repr

/-- The mutable `settings` object (minutes per type and the long-break
cadence). -/
structure Settings where
  work : Int
  short_break : Int
  long_break : Int
  sessions_until_long : Int
deriving DecidableEq, Repr

/-- The `state` object of the widget.  `pausedRemaining` is absent from
the initializer in the source and first assigned in `toggleTimer`; we
model absent/null uniformly as `none`. -/
structure St where
  isRunning : Bool
  isPaused : Bool
  sessionId : Option String
  type : SessionType
  endTime : Option Int
  duration : Int
  classId : Option String
  completedSessions : Int
  pausedRemaining : Option Int
deriving DecidableEq, Repr

/-- JavaScript truthiness of a nullable number: `null` and `0` are falsy. -/
def truthyInt (v : Option Int) : Bool :=
  match v with
  | none => false
  | some x => x != 0

/-- JavaScript arithmetic coercion of a nullable number: `null` coerces
to `0` in `-`/`+`/`<`. -/
def numOf (v : Option Int) : Int := v.getD 0

/-- JavaScript `x || d` on a nullable number: absent and `0` fall back to
the default. -/
def jsOr (v : Option Int) (dflt : Int) : Int :=
  match v with
  | none => dflt
  | some x => if x = 0 then dflt else x

/-- The default `settings` initializer (lines 12-17 of the source). -/
def defaultSettings : Settings :=
  { work := 25, short_break := 5, long_break := 15, sessions_until_long := 4 }

/-- The `state` initializer (lines 20-29 of the source). -/
def initState : St :=
  { isRunning := false, isPaused := false, sessionId := none,
    type := SessionType.work, endTime := none, duration := 25,
    classId := none, completedSessions := 0, pausedRemaining := none }

/-- Duration (in minutes) that `setSessionType` derives from `settings`
for a given type. -/
def settingsFor (c : Settings) (t : SessionType) : Int :=
  match t with
  | SessionType.work => c.work
  | SessionType.short_break => c.short_break
  | SessionType.long_break => c.long_break

/-- Model of `setSessionType(type)` (source lines 325-357): sets `state.type`,
derives `state.duration` from settings, clears `endTime`, clears
`isRunning`/`isPaused`.  Tab/label/color updates, `saveState` and
`updateDisplay` mutate no state fields.  Note that `pausedRemaining` is
NOT cleared. -/
def setSessionType (c : Settings) (s : St) (t : SessionType) : St :=
  { s with type := t, duration := settingsFor c t,
           endTime := none, isRunning := false, isPaused := false }

/-- Model of `toggleTimer()` (source lines 362-409).  `now` is `Date.now()`;
`startResp` is the result of the awaited `POST /pomodoro/start` call:
`some sid` when the fetch succeeded with `{success, session_id: sid}`,
`none` on network failure or unsuccessful response (the catch leaves
`sessionId` untouched).  The fetch is only issued when
`!state.sessionId`. -/
def toggleTimer (s : St) (now : Int) (startResp : Option String) : St :=
  if s.isRunning then
    { s with isPaused := true, isRunning := false,
             pausedRemaining := some (max 0 (numOf s.endTime - now)),
             endTime := none }
  else
    let s1 :=
      if s.isPaused && truthyInt s.pausedRemaining then
        { s with endTime := some (now + numOf s.pausedRemaining),
                 pausedRemaining := none }
      else
        { s with endTime := some (now + s.duration * 60 * 1000) }
    let s2 := { s1 with isRunning := true, isPaused := false }
    if s2.sessionId.isSome then s2
    else
      match startResp with
      | some sid => { s2 with sessionId := some sid }
      | none => s2

/-- Whether `toggleTimer` dispatches the backend `POST /pomodoro/start`
request: only in the start branch, and only when no `sessionId` is held
(source line 384). -/
def toggleStartCallIssued (s : St) : Bool :=
  !s.isRunning && !s.sessionId.isSome

/-- Model of the `completeSession()` net state effect (source lines 431-475): clear
`isRunning`/`endTime`; sound/notification/backend call mutate no state
fields; then if the completed type was `work`, increment
`completedSessions`, and if the incremented count reaches
`sessions_until_long`, reset it to 0 and select `long_break`, else select
`short_break`; for a completed break select `work`; finally clear
`sessionId`. -/
def completeSession (c : Settings) (s : St) : St :=
  let s1 := { s with isRunning := false, endTime := none }
  let s2 :=
    if s1.type = SessionType.work then
      let n := s1.completedSessions + 1
      if n ≥ c.sessions_until_long then
        setSessionType c { s1 with completedSessions := 0 } SessionType.long_break
      else
        setSessionType c { s1 with completedSessions := n } SessionType.short_break
    else
      setSessionType c s1 SessionType.work
  { s2 with sessionId := none }

/-- Model of `resetTimer()` (source lines 480-496): optional backend cancel
(fire-and-forget for state purposes), then clear running/paused/endTime/
sessionId/pausedRemaining. -/
def resetTimer (s : St) : St :=
  { s with isRunning := false, isPaused := false, endTime := none,
           sessionId := none, pausedRemaining := none }

/-- Model of `skipSession()` (source lines 501-525): optional backend cancel,
clear `isRunning`/`endTime`/`sessionId`, then advance the type with the
test `completedSessions >= sessions_until_long - 1` WITHOUT touching the
counter. -/
def skipSession (c : Settings) (s : St) : St :=
  let s1 := { s with isRunning := false, endTime := none, sessionId := none }
  if s1.type = SessionType.work then
    if s1.completedSessions ≥ c.sessions_until_long - 1 then
      setSessionType c s1 SessionType.long_break
    else
      setSessionType c s1 SessionType.short_break
  else
    setSessionType c s1 SessionType.work

/-- The `type` argument of `adjustDuration` is one of the strings
`'work'`, `'short'`, `'long'` (the `data-type` attributes of the
duration buttons). -/
inductive AdjKind where
  | work
  | short
  | long
deriving DecidableEq, Repr

/-- Model of `adjustDuration(type, direction)` (source lines 223-245): clamp the
adjusted setting with `Math.max(min, Math.min(max, v + direction))`
where `min = 1` and `max` is 60 for work, 30 for breaks; then, if the
timer is not running, re-derive the live duration via
`setSessionType(state.type)`; the settings push to the server mutates no
local field. -/
def adjustDuration (c : Settings) (s : St) (k : AdjKind) (dir : Int) :
    Settings × St :=
  let c' :=
    match k with
    | AdjKind.work => { c with work := max 1 (min 60 (c.work + dir)) }
    | AdjKind.short => { c with short_break := max 1 (min 30 (c.short_break + dir)) }
    | AdjKind.long => { c with long_break := max 1 (min 30 (c.long_break + dir)) }
  let s' := if s.isRunning then s else setSessionType c' s s.type
  (c', s')

/-- The remaining-milliseconds value computed by `updateDisplay` (source
lines 530-538): `max(0, endTime - now)` while running with a truthy
`endTime`, the paused snapshot while paused with a truthy snapshot, and
the full nominal duration otherwise. -/
def displayRemaining (s : St) (now : Int) : Int :=
  if s.isRunning && truthyInt s.endTime then max 0 (numOf s.endTime - now)
  else if s.isPaused && truthyInt s.pausedRemaining then numOf s.pausedRemaining
  else s.duration * 60 * 1000

/-- Model of `loadState()` applied to a successfully parsed persisted snapshot `p`
(source lines 588-614).  `Object.assign(state, parsed)` replaces the
state fields with the snapshot; the staleness check then discards
`isRunning`/`endTime`/`sessionId` when the snapshot claims to be running
past its deadline; finally the source unconditionally calls
`setSessionType(state.type)` ("Restore session type UI").  When nothing
was persisted, or parsing throws, the state is left untouched (that case
carries no information for the claims). -/
def loadState (c : Settings) (p : St) (now : Int) : St :=
  let s1 :=
    if p.isRunning ∧ truthyInt p.endTime ∧ numOf p.endTime < now then
      { p with isRunning := false, endTime := none, sessionId := none }
    else p
  setSessionType c s1 s1.type

/-- The JSON body of a successful `GET /pomodoro/active` response, as
read by `fetchSettings` (source lines 270-311).  Absent fields are
`none`; the source applies `|| default` to each numeric field. -/
structure BootstrapData where
  success : Bool
  pomodoro_work_duration : Option Int
  pomodoro_short_break : Option Int
  pomodoro_long_break : Option Int
  pomodoro_sessions_until_long : Option Int
  today_sessions : Option Int
deriving DecidableEq, Repr

/-- Model of `fetchSettings()` (source lines 270-311).  `resp = none` models a
network failure or a non-ok response (state and settings untouched);
`some d` with `d.success = false` is also a no-op.  On success the
settings are repopulated with defaults for falsy fields,
`state.completedSessions` is assigned `data.today_sessions || 0`
unconditionally, and when neither running nor holding an `endTime` the
live duration is reset to the work duration.  Dropdown and indicator
updates mutate no state fields. -/
def fetchSettings (c : Settings) (s : St) (resp : Option BootstrapData) :
    Settings × St :=
  match resp with
  | none => (c, s)
  | some d =>
    if d.success then
      let c' : Settings :=
        { work := jsOr d.pomodoro_work_duration 25,
          short_break := jsOr d.pomodoro_short_break 5,
          long_break := jsOr d.pomodoro_long_break 15,
          sessions_until_long := jsOr d.pomodoro_sessions_until_long 4 }
      let s1 := { s with completedSessions := jsOr d.today_sessions 0 }
      let s2 :=
        if !s1.isRunning && !truthyInt s1.endTime then
          { s1 with duration := c'.work }
        else s1
      (c', s2)
    else (c, s)

/-- The class-select change handler (source lines 205-208): assigns
`state.classId` (empty selection becomes `null`). -/
def setClass (s : St) (cid : Option String) : St :=
  { s with classId := cid }

/-- Observable primitive events of the tick-expiry path (source lines
414-426 and 431-475).  `render` is a call to `updateDisplay`; `saveEv`
is `saveState`; `rotateType` is the `setSessionType` rollover inside
`completeSession`; `backendCompleteCall` is the dispatch of
`POST /pomodoro/complete/{id}`. -/
inductive Ev where
  | stopInterval
  | clearRunning
  | playSound
  | notify
  | backendCompleteCall
  | rotateType
  | clearSessionId
  | saveEv
  | render
deriving DecidableEq, Repr, BEq

/-- The rollover tail of `completeSession`: type advance, `sessionId`
cleared, `saveState`, `updateDisplay`. -/
def rolloverEvents : List Ev :=
  [Ev.rotateType, Ev.clearSessionId, Ev.saveEv, Ev.render]

/-- The prefix of `completeSession` that runs synchronously when the
async function is invoked: it executes up to its first `await`.  With a
`sessionId` held, the first `await` is the backend complete fetch (source
line 450), so only the dispatch of that call belongs to the synchronous
prefix; without one, no `await` is reached and the whole body runs
synchronously. -/
def completeSyncEvents (s : St) : List Ev :=
  [Ev.clearRunning, Ev.playSound, Ev.notify] ++
    (if s.sessionId.isSome then [Ev.backendCompleteCall] else rolloverEvents)

/-- The continuation of `completeSession` that is deferred until the
awaited backend complete call settles (empty when no `sessionId` is
held). -/
def completeDeferredEvents (s : St) : List Ev :=
  if s.sessionId.isSome then rolloverEvents else []

/-- Event trace of one interval callback of `startInterval` (source
lines 416-425) at wall-clock `now`, followed by any deferred
continuation of `completeSession`: the callback computes
`remaining = endTime - now`; on expiry it clears the interval and calls
`completeSession()` (which runs to its first `await`), then calls
`updateDisplay()`; the suspended remainder of `completeSession` resumes
strictly after the callback returns. -/
def tickEvents (s : St) (now : Int) : List Ev :=
  if numOf s.endTime - now ≤ 0 then
    [Ev.stopInterval] ++ completeSyncEvents s ++ [Ev.render] ++
      completeDeferredEvents s
  else [Ev.render]

/-- Event `e` occurs in `evs` strictly before the first `render`. -/
def beforeFirstRender (e : Ev) (evs : List Ev) : Prop :=
  evs.indexOf e < evs.indexOf Ev.render

instance (e : Ev) (evs : List Ev) : Decidable (beforeFirstRender e evs) := by
  unfold beforeFirstRender; infer_instance

/-- States reachable through the public operations of the widget,
paired with the current settings: the initializers, `setSessionType`
via the type tabs (enabled only while not running, source line 199),
`toggleTimer`, the `completeSession` fired by an expired tick,
`resetTimer`, `skipSession`, rehydration (`loadState` on an arbitrary
persisted snapshot), the startup `fetchSettings`, `adjustDuration`, and
the class-select handler. -/
inductive Reach : Settings × St → Prop where
  | init : Reach (defaultSettings, initState)
  | selectType {c : Settings} {s : St} (t : SessionType) :
      Reach (c, s) → s.isRunning = false → Reach (c, setSessionType c s t)
  | toggle {c : Settings} {s : St} (now : Int) (r : Option String) :
      Reach (c, s) → Reach (c, toggleTimer s now r)
  | complete {c : Settings} {s : St} :
      Reach (c, s) → Reach (c, completeSession c s)
  | reset {c : Settings} {s : St} :
      Reach (c, s) → Reach (c, resetTimer s)
  | skip {c : Settings} {s : St} :
      Reach (c, s) → Reach (c, skipSession c s)
  | load {c : Settings} {s : St} (p : St) (now : Int) :
      Reach (c, s) → Reach (c, loadState c p now)
  | bootstrap {c : Settings} {s : St} (resp : Option BootstrapData) :
      Reach (c, s) → Reach (fetchSettings c s resp)
  | adjust {c : Settings} {s : St} (k : AdjKind) (dir : Int) :
      Reach (c, s) → Reach (adjustDuration c s k dir)
  | classSel {c : Settings} {s : St} (cid : Option String) :
      Reach (c, s) → Reach (c, setClass s cid)

/-- Claim C2: completing a `work` session with
`completedSessions = sessions_until_long - 1` rolls the counter to 0 and
selects `long_break`; with any smaller counter it increments the counter
by exactly 1 and selects `short_break`; completing a break selects
`work`.  The counter update precedes the long-vs-short decision. -/
theorem claim_C2_rollover (c : Settings) (s : St) :
    (s.type = SessionType.work →
      s.completedSessions = c.sessions_until_long - 1 →
      (completeSession c s).completedSessions = 0 ∧
      (completeSession c s).type = SessionType.long_break) ∧
    (s.type = SessionType.work →
      s.completedSessions < c.sessions_until_long - 1 →
      (completeSession c s).completedSessions = s.completedSessions + 1 ∧
      (completeSession c s).type = SessionType.short_break) ∧
    (s.type ≠ SessionType.work →
      (completeSession c s).type = SessionType.work) := by
  refine ⟨fun ht hc => ?_, fun ht hc => ?_, fun ht => ?_⟩
  · simp [completeSession, ht, setSessionType]
    rw [if_pos (by omega)]
    simp
  · simp [completeSession, ht, setSessionType]
    rw [if_neg (by omega)]
    simp
  · simp [completeSession, ht, setSessionType]

/-- Claim C2 witness: with the default settings (`sessions_until_long = 4`),
completing work with counter 3 yields counter 0 and a long break,
completing work with counter 0 yields counter 1 and a short break, and
completing a short break yields work. -/
theorem claim_C2_rollover_witness :
    ((completeSession defaultSettings
        { initState with completedSessions := 3 }).completedSessions = 0 ∧
      (completeSession defaultSettings
        { initState with completedSessions := 3 }).type = SessionType.long_break) ∧
    ((completeSession defaultSettings initState).completedSessions = 0 + 1 ∧
      (completeSession defaultSettings initState).type = SessionType.short_break) ∧
    (completeSession defaultSettings
        { initState with type := SessionType.short_break }).type = SessionType.work :=
  ⟨(claim_C2_rollover defaultSettings
      { initState with completedSessions := 3 }).1 rfl (by decide),
   (claim_C2_rollover defaultSettings initState).2.1 rfl (by decide),
   (claim_C2_rollover defaultSettings
      { initState with type := SessionType.short_break }).2.2 (by decide)⟩

/-- Claim C3: from every state, `skipSession` advances to exactly the
session type that `completeSession` would advance to, while leaving
`completedSessions` unchanged. -/
theorem claim_C3_skip_advance (c : Settings) (s : St) :
    (skipSession c s).type = (completeSession c s).type ∧
    (skipSession c s).completedSessions = s.completedSessions := by
  constructor
  · by_cases ht : s.type = SessionType.work
    · simp [skipSession, completeSession, ht, setSessionType]
      split <;> rfl
    · simp [skipSession, completeSession, ht, setSessionType]
  · by_cases ht : s.type = SessionType.work
    · simp only [skipSession, ht, if_true, setSessionType]
      split <;> rfl
    · simp [skipSession, ht, setSessionType]

/-- Claim C9: `adjustDuration` clamps the adjusted setting into `[1,60]`
for work and `[1,30]` for breaks, for every starting settings value and
every direction; in particular `+1` from 59 (or 60) on work gives
exactly 60 and `-1` from 1 stays at 1.  The operation is total: no error
value exists to surface. -/
theorem claim_C9_clamp (c : Settings) (s : St) (dir : Int) :
    (1 ≤ (adjustDuration c s AdjKind.work dir).1.work ∧
      (adjustDuration c s AdjKind.work dir).1.work ≤ 60) ∧
    (1 ≤ (adjustDuration c s AdjKind.short dir).1.short_break ∧
      (adjustDuration c s AdjKind.short dir).1.short_break ≤ 30) ∧
    (1 ≤ (adjustDuration c s AdjKind.long dir).1.long_break ∧
      (adjustDuration c s AdjKind.long dir).1.long_break ≤ 30) ∧
    (c.work = 59 → dir = 1 → (adjustDuration c s AdjKind.work dir).1.work = 60) ∧
    (c.work = 60 → dir = 1 → (adjustDuration c s AdjKind.work dir).1.work = 60) ∧
    (c.work = 1 → dir = -1 → (adjustDuration c s AdjKind.work dir).1.work = 1) := by
  refine ⟨⟨?_, ?_⟩, ⟨?_, ?_⟩, ⟨?_, ?_⟩, fun h1 h2 => ?_, fun h1 h2 => ?_,
    fun h1 h2 => ?_⟩
  all_goals simp [adjustDuration, *]

/-- Claim C9 witness: concrete clamp instances at the bounds. -/
theorem claim_C9_clamp_witness :
    (adjustDuration { defaultSettings with work := 59 } initState
      AdjKind.work 1).1.work = 60 ∧
    (adjustDuration { defaultSettings with work := 60 } initState
      AdjKind.work 1).1.work = 60 ∧
    (adjustDuration { defaultSettings with work := 1 } initState
      AdjKind.work (-1)).1.work = 1 :=
  ⟨(claim_C9_clamp { defaultSettings with work := 59 } initState 1).2.2.2.1
      rfl rfl,
   (claim_C9_clamp { defaultSettings with work := 60 } initState 1).2.2.2.2.1
      rfl rfl,
   (claim_C9_clamp { defaultSettings with work := 1 } initState (-1)).2.2.2.2.2
      rfl rfl⟩

/-- Claim C10: `toggleTimer` from a running state snapshots
`pausedRemaining = max 0 (endTime - now)`, clears `endTime`, moves to
paused, issues no backend call, and leaves `sessionId`, `type`,
`duration`, `classId` and `completedSessions` unchanged. -/
theorem claim_C10_pause (s : St) (now : Int) (r : Option String)
    (h : s.isRunning = true) :
    (toggleTimer s now r).isPaused = true ∧
    (toggleTimer s now r).isRunning = false ∧
    (toggleTimer s now r).pausedRemaining = some (max 0 (numOf s.endTime - now)) ∧
    (toggleTimer s now r).endTime = none ∧
    toggleStartCallIssued s = false ∧
    (toggleTimer s now r).sessionId = s.sessionId ∧
    (toggleTimer s now r).type = s.type ∧
    (toggleTimer s now r).duration = s.duration ∧
    (toggleTimer s now r).classId = s.classId ∧
    (toggleTimer s now r).completedSessions = s.completedSessions := by
  simp [toggleTimer, toggleStartCallIssued, h]

/-- A concrete running state one minute into a 25-minute work session,
with an open backend session. -/
def runningAtMinuteOne : St :=
  { initState with
    isRunning := true
    endTime := some 1500000
    sessionId := some "sid7" }

/-- Claim C10 witness: pausing the concrete running state 60 seconds in. -/
theorem claim_C10_pause_witness :
    (toggleTimer runningAtMinuteOne 60000 none).isPaused = true ∧
    (toggleTimer runningAtMinuteOne 60000 none).isRunning = false ∧
    (toggleTimer runningAtMinuteOne 60000 none).pausedRemaining =
      some (max 0 (numOf runningAtMinuteOne.endTime - 60000)) ∧
    (toggleTimer runningAtMinuteOne 60000 none).endTime = none ∧
    toggleStartCallIssued runningAtMinuteOne = false ∧
    (toggleTimer runningAtMinuteOne 60000 none).sessionId =
      runningAtMinuteOne.sessionId ∧
    (toggleTimer runningAtMinuteOne 60000 none).type = runningAtMinuteOne.type ∧
    (toggleTimer runningAtMinuteOne 60000 none).duration =
      runningAtMinuteOne.duration ∧
    (toggleTimer runningAtMinuteOne 60000 none).classId =
      runningAtMinuteOne.classId ∧
    (toggleTimer runningAtMinuteOne 60000 none).completedSessions =
      runningAtMinuteOne.completedSessions :=
  claim_C10_pause runningAtMinuteOne 60000 none rfl

/-- Claim C4: rehydrating a persisted snapshot that claims to be running
with a positive deadline already in the past yields an idle state
(`isRunning = false`, `isPaused = false`, `endTime = none`) with
`sessionId = none`, and (provided the configured duration for the
snapshot's type is non-negative, as all real settings are) the
display value computed by `updateDisplay` is non-negative at every
wall-clock instant `t`. -/
theorem claim_C4_stale_rehydration (c : Settings) (p : St) (now e t : Int)
    (hrun : p.isRunning = true) (het : p.endTime = some e) (hpos : 0 < e)
    (hpast : e < now) (hdur : 0 ≤ settingsFor c p.type) :
    (loadState c p now).isRunning = false ∧
    (loadState c p now).isPaused = false ∧
    (loadState c p now).endTime = none ∧
    (loadState c p now).sessionId = none ∧
    0 ≤ displayRemaining (loadState c p now) t := by
  have hcond : p.isRunning ∧ truthyInt p.endTime ∧ numOf p.endTime < now := by
    refine ⟨by simp [hrun], by simp [truthyInt, het]; omega, by simp [numOf, het, hpast]⟩
  rw [loadState, if_pos hcond]
  refine ⟨rfl, rfl, rfl, rfl, ?_⟩
  simp [displayRemaining, setSessionType, truthyInt]
  positivity

/-- A persisted snapshot whose deadline (epoch 500) is already past at
load time. -/
def staleSnapshot : St :=
  { initState with
    isRunning := true
    endTime := some 500
    sessionId := some "old"
    type := SessionType.short_break
    completedSessions := 1 }

/-- Claim C4 witness: rehydrating the concrete stale snapshot at epoch
1000 gives a clean idle state with no session id and a non-negative
display value. -/
theorem claim_C4_stale_rehydration_witness :
    (loadState defaultSettings staleSnapshot 1000).isRunning = false ∧
    (loadState defaultSettings staleSnapshot 1000).isPaused = false ∧
    (loadState defaultSettings staleSnapshot 1000).endTime = none ∧
    (loadState defaultSettings staleSnapshot 1000).sessionId = none ∧
    0 ≤ displayRemaining (loadState defaultSettings staleSnapshot 1000) 99999 :=
  claim_C4_stale_rehydration defaultSettings staleSnapshot 1000 500 99999
    rfl rfl (by decide) (by decide) (by decide)

/-- Claim C1 (code-bug demonstration): `loadState` can never produce a
running state — for EVERY persisted snapshot, including one whose
deadline is strictly in the future, the unconditional
`setSessionType(state.type)` at the end of `loadState` (source line 604)
forces `isRunning = false` and `endTime = null`, so the `init` guard
`state.isRunning && state.endTime` (source line 51) never fires and no
running timer survives a reload. -/
theorem claim_C1_divergence (c : Settings) (p : St) (now : Int) :
    (loadState c p now).isRunning = false ∧
    (loadState c p now).endTime = none := by
  constructor <;> simp [loadState, setSessionType]

/-- A running state whose deadline has expired while an open backend
session id is held. -/
def expiredWithSession : St :=
  { initState with
    isRunning := true
    endTime := some 1000
    sessionId := some "abc" }

/-- Claim C5 counterexample: on the tick at epoch 2000 that observes
expiry of `expiredWithSession`, the session-type rotation does NOT occur
before the next render — with a `sessionId` held, `completeSession`
suspends at `await fetch(complete)` (source line 450), so the tick
callback's `updateDisplay` renders before the rollover runs. -/
theorem claim_C5_counterexample :
    ¬ (beforeFirstRender Ev.rotateType (tickEvents expiredWithSession 2000) ∧
       beforeFirstRender Ev.clearSessionId (tickEvents expiredWithSession 2000)) := by
  decide

/-- Claim C5 (amended): on a tick that observes expiry, stopping the
interval and clearing the running flag/deadline always happen before the
next render; the rollover (type rotation and session-id clearing) also
precedes the next render when no `sessionId` is held, but when a
`sessionId` is held the backend complete call is dispatched — and
awaited — strictly before the rollover, which is deferred past the
tick's render. -/
theorem claim_C5_tick_ordering (s : St) (now : Int)
    (h : numOf s.endTime - now ≤ 0) :
    beforeFirstRender Ev.stopInterval (tickEvents s now) ∧
    beforeFirstRender Ev.clearRunning (tickEvents s now) ∧
    (s.sessionId = none →
      beforeFirstRender Ev.rotateType (tickEvents s now) ∧
      beforeFirstRender Ev.clearSessionId (tickEvents s now)) ∧
    (s.sessionId.isSome = true →
      (tickEvents s now).indexOf Ev.backendCompleteCall <
        (tickEvents s now).indexOf Ev.rotateType) := by
  have hev : tickEvents s now =
      [Ev.stopInterval] ++ completeSyncEvents s ++ [Ev.render] ++
        completeDeferredEvents s := by
    simp [tickEvents, h]
  rcases hsid : s.sessionId with _ | sid
  · have hlist : tickEvents s now =
        [Ev.stopInterval, Ev.clearRunning, Ev.playSound, Ev.notify,
         Ev.rotateType, Ev.clearSessionId, Ev.saveEv, Ev.render, Ev.render] := by
      rw [hev]
      simp [completeSyncEvents, completeDeferredEvents, rolloverEvents, hsid]
    rw [hlist]
    refine ⟨by decide, by decide, fun _ => ⟨by decide, by decide⟩, fun hc => ?_⟩
    simp [hsid] at hc
  · have hlist : tickEvents s now =
        [Ev.stopInterval, Ev.clearRunning, Ev.playSound, Ev.notify,
         Ev.backendCompleteCall, Ev.render,
         Ev.rotateType, Ev.clearSessionId, Ev.saveEv, Ev.render] := by
      rw [hev]
      simp [completeSyncEvents, completeDeferredEvents, rolloverEvents, hsid]
    rw [hlist]
    refine ⟨by decide, by decide, fun hc => ?_, fun _ => by decide⟩
    exact absurd hc (by simp)

/-- A running state whose deadline has expired with no backend session
open. -/
def expiredNoSession : St :=
  { initState with
    isRunning := true
    endTime := some 1000 }

/-- Claim C5 witness: the amended ordering at the concrete expired
states, with and without a held session id. -/
theorem claim_C5_tick_ordering_witness :
    (beforeFirstRender Ev.stopInterval (tickEvents expiredNoSession 2000) ∧
     beforeFirstRender Ev.clearRunning (tickEvents expiredNoSession 2000) ∧
     (expiredNoSession.sessionId = none →
       beforeFirstRender Ev.rotateType (tickEvents expiredNoSession 2000) ∧
       beforeFirstRender Ev.clearSessionId (tickEvents expiredNoSession 2000)) ∧
     (expiredNoSession.sessionId.isSome = true →
       (tickEvents expiredNoSession 2000).indexOf Ev.backendCompleteCall <
         (tickEvents expiredNoSession 2000).indexOf Ev.rotateType)) ∧
    (tickEvents expiredWithSession 2000).indexOf Ev.backendCompleteCall <
      (tickEvents expiredWithSession 2000).indexOf Ev.rotateType :=
  ⟨claim_C5_tick_ordering expiredNoSession 2000 (by decide),
   (claim_C5_tick_ordering expiredWithSession 2000 (by decide)).2.2.2 rfl⟩

/-- The flag/field consistency that actually holds in every reachable
state: the deadline is present exactly while running, and a paused state
always carries a remaining-time snapshot.  (The converse for
`pausedRemaining` fails; see the C6 counterexample.) -/
def stateFlagsConsistent (s : St) : Prop :=
  (s.endTime.isSome = true ↔ s.isRunning = true) ∧
  (s.isPaused = true → s.pausedRemaining.isSome = true)

lemma flags_setSessionType (c : Settings) (s : St) (t : SessionType) :
    stateFlagsConsistent (setSessionType c s t) := by
  simp [stateFlagsConsistent, setSessionType]

lemma flags_toggleTimer (s : St) (now : Int) (r : Option String) :
    stateFlagsConsistent (toggleTimer s now r) := by
  unfold toggleTimer
  by_cases h : s.isRunning
  · simp [h, stateFlagsConsistent]
  · simp only [h, if_false, Bool.false_eq_true]
    split <;> split <;> (try split) <;> simp [stateFlagsConsistent]

lemma flags_completeSession (c : Settings) (s : St) :
    stateFlagsConsistent (completeSession c s) := by
  simp only [completeSession]
  split <;> (try split) <;> simp [stateFlagsConsistent, setSessionType]

lemma flags_skipSession (c : Settings) (s : St) :
    stateFlagsConsistent (skipSession c s) := by
  simp only [skipSession]
  split <;> (try split) <;> simp [stateFlagsConsistent, setSessionType]

lemma flags_adjustDuration (c : Settings) (s : St) (k : AdjKind) (dir : Int)
    (h : stateFlagsConsistent s) :
    stateFlagsConsistent (adjustDuration c s k dir).2 := by
  rcases k <;> simp only [adjustDuration] <;> split <;>
    first
      | exact h
      | exact flags_setSessionType ..

lemma flags_fetchSettings (c : Settings) (s : St) (resp : Option BootstrapData)
    (h : stateFlagsConsistent s) :
    stateFlagsConsistent (fetchSettings c s resp).2 := by
  unfold fetchSettings
  rcases resp with _ | d
  · exact h
  · rcases h with ⟨h1, h2⟩
    by_cases hs : d.success
    · simp only [hs, if_true]
      split <;> exact ⟨h1, h2⟩
    · simp only [hs, Bool.false_eq_true, if_false]
      exact ⟨h1, h2⟩

/-- Claim C6 (amended): in every reachable state, `endTime` is present
iff the state is running, and a paused state always carries a
`pausedRemaining` snapshot.  The full biconditional for
`pausedRemaining` claimed by the specification fails (see the
counterexample): a stale snapshot survives `setSessionType` and
`skipSession`. -/
theorem claim_C6_flags_invariant (p : Settings × St) (h : Reach p) :
    stateFlagsConsistent p.2 := by
  induction h with
  | init => simp [stateFlagsConsistent, initState]
  | selectType t _ _ => exact flags_setSessionType ..
  | toggle now r _ _ => exact flags_toggleTimer ..
  | complete _ _ => exact flags_completeSession ..
  | reset _ _ => simp [stateFlagsConsistent, resetTimer]
  | skip _ _ => exact flags_skipSession ..
  | load p now _ _ => exact flags_setSessionType ..
  | bootstrap resp _ ih => exact flags_fetchSettings _ _ _ ih
  | adjust k dir _ ih => exact flags_adjustDuration _ _ _ _ ih
  | classSel cid _ ih => exact ih

/-- Claim C6 witness: the invariant at the initial state, which is
reachable by the empty trace. -/
theorem claim_C6_flags_invariant_witness :
    stateFlagsConsistent initState :=
  claim_C6_flags_invariant (defaultSettings, initState) Reach.init

/-- The state obtained by starting the timer at epoch 0, pausing it at
epoch 60000, and then clicking the `work` type tab: idle, yet still
holding the stale paused snapshot. -/
def pausedThenRetyped : St :=
  setSessionType defaultSettings
    (toggleTimer (toggleTimer initState 0 none) 60000 none) SessionType.work

/-- Claim C6 counterexample: `pausedThenRetyped` is reachable
(start, pause, select type), is not paused, yet still has
`pausedRemaining = some 1440000` — `setSessionType` clears
`isPaused` but not `pausedRemaining`, refuting "pausedRemainingMs is
set iff paused". -/
theorem claim_C6_counterexample :
    Reach (defaultSettings, pausedThenRetyped) ∧
    ¬ ((pausedThenRetyped.endTime.isSome = true ↔
          pausedThenRetyped.isRunning = true) ∧
       (pausedThenRetyped.pausedRemaining.isSome = true ↔
          pausedThenRetyped.isPaused = true)) := by
  constructor
  · exact Reach.selectType SessionType.work
      (Reach.toggle 60000 none (Reach.toggle 0 none Reach.init)) (by decide)
  · decide

/-- A bootstrap response reporting default settings and 7 sessions
already completed today. -/
def bootstrapSeven : BootstrapData :=
  { success := true
    pomodoro_work_duration := some 25
    pomodoro_short_break := some 5
    pomodoro_long_break := some 15
    pomodoro_sessions_until_long := some 4
    today_sessions := some 7 }

/-- Claim C7 counterexample: the state reached from startup by the
bootstrap fetch alone, when the server reports `today_sessions = 7`
against `sessions_until_long = 4`, is reachable yet has
`completedSessions = 7 ∉ [0, 4)` — `fetchSettings` seeds the counter
without clamping it to the interval. -/
theorem claim_C7_counterexample :
    Reach (fetchSettings defaultSettings initState (some bootstrapSeven)) ∧
    ¬ ((fetchSettings defaultSettings initState
          (some bootstrapSeven)).2.completedSessions <
        (fetchSettings defaultSettings initState
          (some bootstrapSeven)).1.sessions_until_long) :=
  ⟨Reach.bootstrap (some bootstrapSeven) Reach.init, by decide⟩

/-- Claim C7 (amended): the purely local transitions preserve
`completedSessions ∈ [0, sessions_until_long)` — `completeSession`
keeps the counter in the interval, rolling it to 0 with a long break in
the very transition whose increment would reach the bound, and
`skipSession` leaves the counter untouched — but the startup bootstrap
fetch seeds the counter from the server without clamping and can place
it outside the interval (see the counterexample). -/
theorem claim_C7_counter_interval (c : Settings) (s : St)
    (h0 : 0 ≤ s.completedSessions)
    (h1 : s.completedSessions < c.sessions_until_long) :
    (0 ≤ (completeSession c s).completedSessions ∧
      (completeSession c s).completedSessions < c.sessions_until_long) ∧
    (0 ≤ (skipSession c s).completedSessions ∧
      (skipSession c s).completedSessions < c.sessions_until_long) ∧
    (s.type = SessionType.work →
      c.sessions_until_long ≤ s.completedSessions + 1 →
      (completeSession c s).completedSessions = 0 ∧
      (completeSession c s).type = SessionType.long_break) := by
  have hskip : (skipSession c s).completedSessions = s.completedSessions := by
    simp only [skipSession]
    split <;> (try split) <;> simp [setSessionType]
  refine ⟨?_, ?_, fun ht hc => ?_⟩
  · by_cases ht : s.type = SessionType.work
    · by_cases hc : s.completedSessions + 1 ≥ c.sessions_until_long
      · simp [completeSession, ht, setSessionType]
        rw [if_pos hc]
        simp
        omega
      · simp [completeSession, ht, setSessionType]
        rw [if_neg hc]
        simp
        omega
    · simp [completeSession, ht, setSessionType]
      omega
  · rw [hskip]
    exact ⟨h0, h1⟩
  · simp [completeSession, ht, setSessionType]
    rw [if_pos hc]
    simp

/-- Claim C7 witness: the preservation statement at the default settings
with counter 3: completing work rolls over to 0 with a long break. -/
theorem claim_C7_counter_interval_witness :
    (0 ≤ (completeSession defaultSettings
        { initState with completedSessions := 3 }).completedSessions ∧
      (completeSession defaultSettings
        { initState with completedSessions := 3 }).completedSessions <
        defaultSettings.sessions_until_long) ∧
    (0 ≤ (skipSession defaultSettings
        { initState with completedSessions := 3 }).completedSessions ∧
      (skipSession defaultSettings
        { initState with completedSessions := 3 }).completedSessions <
        defaultSettings.sessions_until_long) ∧
    ({ initState with completedSessions := 3 }.type = SessionType.work →
      defaultSettings.sessions_until_long ≤
        { initState with completedSessions := 3 }.completedSessions + 1 →
      (completeSession defaultSettings
        { initState with completedSessions := 3 }).completedSessions = 0 ∧
      (completeSession defaultSettings
        { initState with completedSessions := 3 }).type =
        SessionType.long_break) :=
  claim_C7_counter_interval defaultSettings
    { initState with completedSessions := 3 } (by decide) (by decide)

/-- A state holding a locally accumulated counter of 3 (for instance,
rehydrated from the durable store). -/
def localCountThree : St := { initState with completedSessions := 3 }

/-- A bootstrap response whose `today_sessions` is 5. -/
def bootstrapFive : BootstrapData :=
  { success := true
    pomodoro_work_duration := some 25
    pomodoro_short_break := some 5
    pomodoro_long_break := some 15
    pomodoro_sessions_until_long := some 4
    today_sessions := some 5 }

/-- Claim C8 counterexample: with a local counter of 3 already present,
the bootstrap fetch does NOT leave it unchanged — it overwrites it with
the server's value 5 (`state.completedSessions = data.today_sessions || 0`
is unconditional, source line 281). -/
theorem claim_C8_counterexample :
    ¬ ((fetchSettings defaultSettings localCountThree
          (some bootstrapFive)).2.completedSessions =
        localCountThree.completedSessions) := by
  decide

/-- Claim C8 (amended): a successful bootstrap fetch populates Settings
from the response (with defaults for falsy fields) and unconditionally
overwrites `completedSessions` with the server's `today_sessions`
(0 when absent or 0) — the result is independent of whatever local
counter value was present. -/
theorem claim_C8_bootstrap_overwrites (c : Settings) (s : St)
    (d : BootstrapData) (x : Int) (hd : d.success = true) :
    (fetchSettings c s (some d)).2.completedSessions =
      jsOr d.today_sessions 0 ∧
    (fetchSettings c s (some d)).2.completedSessions =
      (fetchSettings c { s with completedSessions := x }
        (some d)).2.completedSessions ∧
    (fetchSettings c s (some d)).1 =
      { work := jsOr d.pomodoro_work_duration 25,
        short_break := jsOr d.pomodoro_short_break 5,
        long_break := jsOr d.pomodoro_long_break 15,
        sessions_until_long := jsOr d.pomodoro_sessions_until_long 4 } := by
  have hA : (fetchSettings c s (some d)).2.completedSessions =
      jsOr d.today_sessions 0 := by
    simp only [fetchSettings, hd, if_true]
    split <;> rfl
  have hB : (fetchSettings c s (some d)).2.completedSessions =
      (fetchSettings c { s with completedSessions := x }
        (some d)).2.completedSessions := by
    simp only [fetchSettings, hd, if_true]
  have hC : (fetchSettings c s (some d)).1 =
      { work := jsOr d.pomodoro_work_duration 25,
        short_break := jsOr d.pomodoro_short_break 5,
        long_break := jsOr d.pomodoro_long_break 15,
        sessions_until_long := jsOr d.pomodoro_sessions_until_long 4 } := by
    simp only [fetchSettings, hd, if_true]
  exact ⟨hA, hB, hC⟩

/-- Claim C8 witness: the overwrite at the concrete local counter 3 and
server value 5. -/
theorem claim_C8_bootstrap_overwrites_witness :
    (fetchSettings defaultSettings localCountThree
        (some bootstrapFive)).2.completedSessions =
      jsOr bootstrapFive.today_sessions 0 ∧
    (fetchSettings defaultSettings localCountThree
        (some bootstrapFive)).2.completedSessions =
      (fetchSettings defaultSettings
        { localCountThree with completedSessions := 0 }
        (some bootstrapFive)).2.completedSessions ∧
    (fetchSettings defaultSettings localCountThree (some bootstrapFive)).1 =
      { work := jsOr bootstrapFive.pomodoro_work_duration 25,
        short_break := jsOr bootstrapFive.pomodoro_short_break 5,
        long_break := jsOr bootstrapFive.pomodoro_long_break 15,
        sessions_until_long :=
          jsOr bootstrapFive.pomodoro_sessions_until_long 4 } :=
  claim_C8_bootstrap_overwrites defaultSettings localCountThree
    bootstrapFive 0 rfl
